import Mathlib

/-!
Verification development for the `text-to-sql` repository.

The Python source is shallowly embedded: pure helper functions become Lean
functions over `String` / `List Char`, the pydantic models become structures,
and each agent's `process` method becomes a state-transforming function.
External inputs (language-model responses, database results) are modelled as
explicit oracle parameters carrying the *parsed outcome* of the response,
since each agent only ever consumes the response through one fixed parsing
path (`response.find`, `json.loads`, `dict.get` with defaults).

Caveats of the embedding, stated once here:
* Python `str` operations (`upper`, `lower`, `strip`, the regex classes
  `\w` and `\b`) are modelled for ASCII text; Lean's `Char.toUpper`,
  `Char.toLower` and `Char.isAlphanum` agree with Python on ASCII.
* Wall-clock fields (`execution_time`, `processing_time`) and pure logging
  side effects (`agent_interactions`, file logs) are omitted: no claim
  mentions them.
* Python dictionaries read exclusively via `dict.get(key, default)` are
  modelled as structures whose fields hold the already-defaulted values;
  each key of every such dictionary is read with a single fixed default.
-/

namespace TextToSQL

/-! ### Python string primitives -/

/-- Word character of the regex class `\w` (ASCII fragment):
letters, digits, underscore. -/
def isWordChar (c : Char) : Bool := c.isAlphanum || c == '_'

/-- Whitespace stripped by Python `str.strip()` (ASCII fragment). -/
def isPySpace (c : Char) : Bool :=
  c == ' ' || c == '\t' || c == '\n' || c == '\r' || c == '\x0b' || c == '\x0c'

/-- Python `str.strip()`. -/
def pyStrip (l : List Char) : List Char :=
  ((l.dropWhile isPySpace).reverse.dropWhile isPySpace).reverse

/-- Python substring containment `pat in s`. -/
def listHasSub (pat : List Char) : List Char → Bool
  | [] => pat.isPrefixOf []
  | c :: cs => pat.isPrefixOf (c :: cs) || listHasSub pat cs

/-- The position right after a match: regex `\b` holds there iff the string
ends or continues with a non-word character (all patterns searched in the
source end in a word character). -/
def boundaryOk : List Char → Bool
  | [] => true
  | c :: _ => !(isWordChar c)

/-- `re` match of `pat` followed by a `\b` boundary at the head of `s`. -/
def matchHere (pat s : List Char) : Bool :=
  pat.isPrefixOf s && boundaryOk (s.drop pat.length)

/-- Scan of `re.search(r'\b' + pat + r'\b', s)` for a pattern starting and
ending in word characters: `prevW` records whether the character just before
the current suffix is a word character. -/
def scanWord (pat : List Char) : Bool → List Char → Bool
  | _, [] => false
  | prevW, c :: cs => (!prevW && matchHere pat (c :: cs)) || scanWord pat (isWordChar c) cs

/-- `re.search(r'\b' + re.escape(pat) + r'\b', s) is not None`. -/
def containsWord (pat s : List Char) : Bool := scanWord pat false s

/-! ### `QualityValidatorAgent._basic_syntax_check` (src/agents/quality_validator.py:73-95) -/

/-- Python `sql.strip().endswith(';')`. -/
def endsWithSemi (l : List Char) : Bool := (pyStrip l).getLast? == some ';'

/-- `QualityValidatorAgent._basic_syntax_check`. -/
def basic_syntax_check (sql : String) : List String :=
  let l := sql.toList
  let sql_upper := l.map Char.toUpper
  (if ["SELECT", "INSERT", "UPDATE", "DELETE"].any
      (fun keyword => listHasSub keyword.toList sql_upper) then []
   else ["SQL 키워드(SELECT, INSERT, UPDATE, DELETE)가 없습니다."])
  ++ (if l.count '(' ≠ l.count ')' then ["괄호가 균형을 이루지 않습니다."] else [])
  ++ (if l.count '\'' % 2 ≠ 0 then ["작은따옴표가 짝을 이루지 않습니다."] else [])
  ++ (if endsWithSemi l then [] else ["SQL 쿼리는 세미콜론(;)으로 끝나야 합니다."])

/-! ### `SQLValidator.validate_sql_safety` (src/database_connector.py:417-465) -/

/-- The forbidden keyword list of `validate_sql_safety`, in source order. -/
def forbidden_keywords : List String :=
  ["INSERT", "UPDATE", "DELETE", "DROP", "CREATE", "ALTER",
   "TRUNCATE", "REPLACE", "MERGE", "GRANT", "REVOKE",
   "EXEC", "EXECUTE", "CALL", "LOAD", "OUTFILE", "DUMPFILE",
   "INTO OUTFILE", "INTO DUMPFILE"]

/-- Auxiliary bound used for the termination of `findSubqueries`. -/
lemma length_lt_of_dropWhile_cons {p : Char → Bool} {l tl : List Char} {a : Char}
    (h : l.dropWhile p = a :: tl) : tl.length < l.length := by
  have h1 := (List.dropWhile_sublist (l := l) p).length_le
  rw [h] at h1
  simp at h1
  omega

/-- Structural worker for `findSubqueries`: the fuel bounds the number of
characters still to be scanned, so `fuel = s.length` always suffices
(each step consumes at least one character). -/
def findSubqueriesAux : Nat → List Char → List (List Char)
  | 0, _ => []
  | fuel + 1, s =>
    match s with
    | [] => []
    | c :: rest =>
      if c = '(' then
        let content := rest.takeWhile (fun d => !(d == ')'))
        match rest.dropWhile (fun d => !(d == ')')) with
        | ')' :: tail =>
          if content.isEmpty then findSubqueriesAux fuel rest
          else content :: findSubqueriesAux fuel tail
        | _ => findSubqueriesAux fuel rest
      else findSubqueriesAux fuel rest

/-- `re.findall(r'\(([^)]+)\)', s)`: scan left to right; at each `'('`, the
greedy `[^)]+` takes the maximal run of non-`')'` characters, the match
succeeds iff at least one such character is followed by a literal `')'`,
and scanning resumes after the consumed match. -/
def findSubqueries (s : List Char) : List (List Char) :=
  findSubqueriesAux s.length s

/-- Rule 2 of `validate_sql_safety`: forbidden keywords as whole words of
the uppercased, stripped query. -/
def keyword_errors (sql_upper : List Char) : List String :=
  forbidden_keywords.filterMap fun keyword =>
    if containsWord keyword.toList sql_upper then
      some ("금지된 키워드가 포함되어 있습니다: " ++ keyword)
    else none

/-- Rule 3 of `validate_sql_safety`: forbidden keywords inside each
parenthesised subquery span. -/
def subquery_errors (sql_upper : List Char) : List String :=
  (findSubqueries sql_upper).flatMap fun subquery =>
    forbidden_keywords.filterMap fun keyword =>
      if containsWord keyword.toList subquery then
        some ("서브쿼리에 금지된 키워드가 포함되어 있습니다: " ++ keyword)
      else none

/-- Rule 4 of `validate_sql_safety`: comment markers in the raw query. -/
def comment_errors (sql : String) : List String :=
  if listHasSub "--".toList sql.toList || listHasSub "/*".toList sql.toList
      || listHasSub "*/".toList sql.toList then
    ["주석은 허용되지 않습니다."]
  else []

/-- Rule 5 of `validate_sql_safety`: more than one `';'` in the raw query. -/
def multi_query_errors (sql : String) : List String :=
  if sql.toList.count ';' > 1 then ["다중 쿼리는 허용되지 않습니다."] else []

/-- The error list accumulated by rules 2-5 of `validate_sql_safety`,
in source order. -/
def safety_errors (sql : String) : List String :=
  keyword_errors (pyStrip (sql.toList.map Char.toUpper))
    ++ subquery_errors (pyStrip (sql.toList.map Char.toUpper))
    ++ comment_errors sql
    ++ multi_query_errors sql

/-- `SQLValidator.validate_sql_safety` (src/database_connector.py:417-465).
Returns `(안전여부, 오류목록)`; rule 1 (`SELECT` prefix of the uppercased,
stripped query) returns early. -/
def validate_sql_safety (sql : String) : Bool × List String :=
  if !("SELECT".toList.isPrefixOf (pyStrip (sql.toList.map Char.toUpper))) then
    (false, ["SELECT 쿼리만 허용됩니다."])
  else
    ((safety_errors sql).isEmpty, safety_errors sql)

/-- The 17 forbidden keywords named by the specification's Safety-Gate
contract. The source list (`forbidden_keywords`) additionally carries the
compounds `INTO OUTFILE` / `INTO DUMPFILE`, which are subsumed by their
second words. -/
def spec_forbidden_keywords : List String :=
  ["INSERT", "UPDATE", "DELETE", "DROP", "CREATE", "ALTER", "TRUNCATE",
   "REPLACE", "MERGE", "GRANT", "REVOKE", "EXEC", "EXECUTE", "CALL",
   "LOAD", "OUTFILE", "DUMPFILE"]

/-- The Safety-Gate rejection condition exactly as the specification words
it: not starting with `SELECT` after uppercasing and stripping, containing
one of the 17 forbidden keywords as a whole word, containing a comment
marker, or containing more than one statement terminator. Stated over the
same string primitives as the source embedding, to be compared against
`validate_sql_safety`. -/
def specSafetyViolation (sql : String) : Prop :=
  ¬("SELECT".toList.isPrefixOf (pyStrip (sql.toList.map Char.toUpper)) = true)
  ∨ (∃ k ∈ spec_forbidden_keywords,
      containsWord k.toList (pyStrip (sql.toList.map Char.toUpper)) = true)
  ∨ (listHasSub "--".toList sql.toList = true ∨ listHasSub "/*".toList sql.toList = true
      ∨ listHasSub "*/".toList sql.toList = true)
  ∨ 1 < sql.toList.count ';'

instance (sql : String) : Decidable (specSafetyViolation sql) := by
  unfold specSafetyViolation
  infer_instance

/-! ### Data model (src/models.py) -/

/-- `ProcessingStep` (src/models.py:14-22). -/
inductive ProcessingStep where
  | SCHEMA_ANALYSIS
  | QUERY_PLANNING
  | SQL_DEVELOPMENT
  | QUALITY_VALIDATION
  | SQL_EXECUTION
  | COMPLETED
  | ERROR
deriving DecidableEq, Repr

/-- A result row, as an association list of column name to rendered value. -/
def Row : Type := List (String × String)
deriving DecidableEq

/-- `SchemaAnalysisResult` (src/models.py:32-37); `TableInfo` entries reduced
to the fields the embedded agents read (`relevant_tables` is only ever
measured by length here). -/
structure SchemaAnalysisResult where
  relevant_tables : List String
  key_relationships : List String
  suggested_joins : List String
  analysis_notes : String
deriving DecidableEq

/-- `QueryPlan` (src/models.py:39-45). -/
structure QueryPlan where
  query_steps : List String
  join_strategy : List String
  subquery_structure : List String
  complexity_level : String
  estimated_performance : String
deriving DecidableEq

/-- `SQLResult` (src/models.py:47-52). -/
structure SQLResult where
  sql_query : String
  explanation : String
  performance_notes : String
  expected_columns : List String
deriving DecidableEq

/-- `ValidationResult` (src/models.py:54-60). -/
structure ValidationResult where
  is_valid : Bool
  syntax_errors : List String
  logic_warnings : List String
  suggestions : List String
  final_sql : Option String := none
deriving DecidableEq

/-- The analysis dictionary produced by the Result Judge
(`SQLExecutionAgent._analyze_execution_result` /
`_basic_result_analysis`); every key is read back through
`dict.get(key, default)` with one fixed default per key, so fields hold the
defaulted values. -/
structure Analysis where
  is_valid : Bool := false
  result_quality : String := ""
  issues_found : List String := []
  recommendations : List String := []
  needs_retry : Bool := false
  retry_reason : String := "결과 검증 실패"
deriving DecidableEq

/-- `SQLExecutionResult` (src/models.py:62-71); the float field
`execution_time` is omitted. -/
structure SQLExecutionResult where
  sql_query : String
  execution_success : Bool
  result_data : Option (List Row) := none
  result_columns : Option (List String) := none
  row_count : Nat := 0
  error_message : Option String := none
  analysis : Option Analysis := none
deriving DecidableEq

/-- `AgentState` (src/models.py:73-102); the metadata fields
`processing_time` and `agent_interactions` are omitted (no claim reads
them). -/
structure AgentState where
  user_query : String
  original_language : String := "korean"
  current_step : ProcessingStep := .SCHEMA_ANALYSIS
  processing_history : List String := []
  schema_analysis : Option SchemaAnalysisResult := none
  query_plan : Option QueryPlan := none
  sql_result : Option SQLResult := none
  validation_result : Option ValidationResult := none
  sql_execution_result : Option SQLExecutionResult := none
  final_sql : Option String := none
  explanation : Option String := none
  execution_data : Option (List Row) := none
  error_message : Option String := none
  retry_count : Nat := 0
deriving DecidableEq

/-- The dictionary returned by `DatabaseConnection.execute_query`; keys are
read via `dict.get`, `error`/`data`/`columns` may be absent or `None`
(both modelled as `none`), `row_count` defaults to 0. -/
structure ExecResult where
  success : Bool
  data : Option (List Row) := none
  columns : Option (List String) := none
  row_count : Nat := 0
  error : Option String := none
deriving DecidableEq

/-! ### `SQLExecutionAgent` (src/sql_execution_agent.py) -/

/-- `SQLExecutionAgent._basic_result_analysis`
(src/sql_execution_agent.py:247-287). -/
def basic_result_analysis (execution_result : ExecResult) : Analysis :=
  if !execution_result.success then
    { is_valid := false
      result_quality := "poor"
      issues_found := [execution_result.error.getD "실행 실패"]
      recommendations := ["SQL 구문을 확인하고 수정이 필요합니다."]
      needs_retry := true
      retry_reason := "SQL 실행 오류" }
  else
    let row_count := execution_result.row_count
    if row_count = 0 then
      { is_valid := false
        result_quality := "poor"
        issues_found := ["결과가 0건입니다"]
        recommendations := ["조건을 완화하거나 데이터 존재 여부를 확인해주세요"]
        needs_retry := true
        retry_reason := "결과 없음" }
    else if row_count > 1000 then
      { is_valid := false
        result_quality := "poor"
        issues_found := ["결과가 너무 많습니다"]
        recommendations := ["LIMIT 절을 추가하거나 조건을 더 구체적으로 만들어주세요"]
        needs_retry := true
        retry_reason := "결과 과다" }
    else
      { is_valid := true
        result_quality := "good"
        issues_found := []
        recommendations := []
        needs_retry := false
        retry_reason := "" }

/-- Outcome of the Result Judge's model call in
`_analyze_execution_result` (src/sql_execution_agent.py:175-227): either the
response contained a parseable JSON object (`llmJson`, carrying its
defaulted fields), or parsing/invocation failed and the deterministic
fallback is used. -/
inductive JudgeOutcome where
  | llmJson (a : Analysis)
  | fallback
deriving DecidableEq

/-- `SQLExecutionAgent._analyze_execution_result`. -/
def analyze_execution_result (execution_result : ExecResult) (j : JudgeOutcome) : Analysis :=
  match j with
  | .llmJson a => a
  | .fallback => basic_result_analysis execution_result

/-- The connection-error keyword list of `SQLExecutionAgent.process`
(src/sql_execution_agent.py:88-91). -/
def connection_error_keywords : List String :=
  ["db 연결 실패", "connection error", "ssh", "paramiko", "tunnel", "connection failed",
   "연결 실패", "연결 오류", "has no attribute"]

/-- `any(keyword in str(error_message).lower() for keyword in ...)`. -/
def is_connection_error (error_message : String) : Bool :=
  connection_error_keywords.any fun keyword =>
    listHasSub keyword.toList (error_message.toList.map Char.toLower)

/-- `SQLExecutionAgent.process` (src/sql_execution_agent.py:64-173).
`execution_result` stands for the awaited result of
`db_connection.execute_query`, and `j` for the outcome of the Result
Judge's model call (consulted only on the non-connection-error path).
File logging (`_log_failure_for_retry`) is omitted. -/
def sqlExecProcess (state : AgentState) (execution_result : ExecResult)
    (j : JudgeOutcome) : AgentState :=
  let noSql : AgentState :=
    { state with current_step := .ERROR, error_message := some "실행할 SQL이 없습니다." }
  match state.validation_result with
  | none => noSql
  | some vr =>
    match vr.final_sql with
    | none => noSql
    | some sql_query =>
      if sql_query = "" then noSql
      else
        let safety := validate_sql_safety sql_query
        if !safety.1 then
          { state with
              current_step := .ERROR
              error_message := some ("안전하지 않은 SQL: " ++ String.intercalate ", " safety.2) }
        else
          let error_message := execution_result.error.getD ""
          if is_connection_error error_message then
            { state with
                sql_execution_result := some
                  { sql_query := sql_query
                    execution_success := false
                    result_data := none
                    result_columns := none
                    row_count := 0
                    error_message := execution_result.error
                    analysis := some
                      { is_valid := false, needs_retry := false, retry_reason := "DB 연결 오류" } }
                current_step := .ERROR
                error_message := some ("데이터베이스 연결 실패: " ++ error_message)
                processing_history := state.processing_history ++ ["DB 연결 오류로 SQL 실행 불가"] }
          else
            let analysis := analyze_execution_result execution_result j
            let state :=
              { state with
                  sql_execution_result := some
                    { sql_query := sql_query
                      execution_success := execution_result.success
                      result_data := execution_result.data
                      result_columns := execution_result.columns
                      row_count := execution_result.row_count
                      error_message := execution_result.error
                      analysis := some analysis } }
            if execution_result.success && analysis.is_valid then
              { state with
                  current_step := .COMPLETED
                  final_sql := some sql_query
                  execution_data := execution_result.data
                  processing_history := state.processing_history ++
                    ["SQL 실행 성공: " ++ toString execution_result.row_count ++ "건 조회"] }
            else if analysis.needs_retry && state.retry_count < 20 then
              { state with
                  retry_count := state.retry_count + 1
                  current_step := .SQL_DEVELOPMENT
                  error_message := some ("SQL 재생성 필요 (" ++ toString (state.retry_count + 1)
                    ++ "/20): " ++ analysis.retry_reason)
                  processing_history := state.processing_history ++
                    ["SQL 실행 결과 불만족으로 재생성 요청 (시도 "
                      ++ toString (state.retry_count + 1) ++ ")"] }
            else
              { state with
                  current_step := .ERROR
                  error_message := some
                    (if state.retry_count ≥ 20 then
                      "최대 재시도 횟수 초과 (20회): 더 구체적인 질의를 시도해보세요."
                    else
                      match execution_result.error with
                      | some e => if e = "" then "SQL 실행 결과가 유효하지 않습니다." else e
                      | none => "SQL 실행 결과가 유효하지 않습니다.")
                  processing_history := state.processing_history ++ ["SQL 실행 실패"] }

/-! ### `QualityValidatorAgent` (src/agents/quality_validator.py) -/

/-- Maximal runs of `\w` characters of a string, in order; helper for the
regex `\b(tb_\w+)\b` used by `_check_table_column_references`. -/
def wordRunsAux : List Char → List Char → List (List Char)
  | acc, [] => if acc.isEmpty then [] else [acc.reverse]
  | acc, c :: cs =>
    if isWordChar c then wordRunsAux (c :: acc) cs
    else if acc.isEmpty then wordRunsAux [] cs
    else acc.reverse :: wordRunsAux [] cs

def wordRuns (s : List Char) : List (List Char) := wordRunsAux [] s

/-- `re.findall(r'\b(tb_\w+)\b', sql.lower())`: each maximal word-character
run of the lowered text that starts with `tb_` and continues with at least
one further word character is returned whole (greedy `\w+`, boundaries at
the run's edges). -/
def findTbTables (sql : List Char) : List (List Char) :=
  (wordRuns (sql.map Char.toLower)).filter fun r =>
    "tb_".toList.isPrefixOf r && 4 ≤ r.length

/-- `QualityValidatorAgent._check_table_column_references`
(src/agents/quality_validator.py:97-122). `schema_data` lists the pairs
(schema key, `table_info["table"]`); the column map the source also builds
is dead code for the produced warnings and is omitted. -/
def check_table_column_references (sql : String)
    (schema_data : List (String × String)) : List String :=
  let valid_tables := schema_data.map Prod.snd
  let referenced_tables := findTbTables sql.toList
  referenced_tables.filterMap fun table =>
    if valid_tables.contains (String.mk table) then none
    else some ("테이블 '" ++ String.mk table ++ "'이 스키마에 존재하지 않습니다.")

/-- The `validation_data` dictionary of `QualityValidatorAgent.process`,
with every key already defaulted as read back
(`is_valid` ↦ `False`, lists ↦ `[]`, `final_sql` ↦ the original SQL). -/
structure VData where
  is_valid : Bool := false
  syntax_errors : List String := []
  logic_warnings : List String := []
  suggestions : List String := []
  final_sql : String
deriving DecidableEq

/-- Outcome of the validator's correction model call, as parsed by
src/agents/quality_validator.py:173-211: a JSON object was found and loaded
(`jsonData`), no braces were found and a ```sql block was or was not
extracted (`sqlBlock`), `json.loads` raised (`parseFail`), or the model
invocation itself raised (`exn`). -/
inductive ValidatorOutcome where
  | jsonData (d : VData)
  | sqlBlock (extracted : Option String)
  | parseFail
  | exn (emsg : String)
deriving DecidableEq

/-- The corrected-SQL re-check of `QualityValidatorAgent.process`
(src/agents/quality_validator.py:195-201): the verdict is overwritten only
when the corrected SQL differs from the original and has strictly fewer
defects. -/
def validator_recheck (original_sql : String) (syntax_errors : List String)
    (d : VData) : VData :=
  let corrected_sql := d.final_sql
  if corrected_sql ≠ original_sql then
    let corrected_errors := basic_syntax_check corrected_sql
    if corrected_errors.length < syntax_errors.length then
      { d with syntax_errors := corrected_errors, is_valid := corrected_errors.isEmpty }
    else d
  else d

/-- Final state update of `QualityValidatorAgent.process`
(src/agents/quality_validator.py:222-243). -/
def validator_finish (state : AgentState) (sr : SQLResult) (vd : VData) : AgentState :=
  let validation_result : ValidationResult :=
    { is_valid := vd.is_valid
      syntax_errors := vd.syntax_errors
      logic_warnings := vd.logic_warnings
      suggestions := vd.suggestions
      final_sql := some vd.final_sql }
  let state := { state with validation_result := some validation_result }
  if validation_result.is_valid then
    { state with
        final_sql := validation_result.final_sql
        explanation := some sr.explanation
        current_step := .COMPLETED
        processing_history := state.processing_history ++ ["품질 검증 완료: SQL이 유효합니다."] }
  else
    { state with
        current_step := .ERROR
        error_message := some ("SQL 검증 실패: "
          ++ String.intercalate ", " validation_result.syntax_errors)
        processing_history := state.processing_history ++
          ["품질 검증 실패: " ++ toString validation_result.syntax_errors.length ++ "개 오류"] }

/-- `QualityValidatorAgent.process` (src/agents/quality_validator.py:124-250).
`llm` is the outcome of the correction model call, consulted only when the
structural check finds defects. -/
def validatorProcess (schema_data : List (String × String)) (state : AgentState)
    (llm : ValidatorOutcome) : AgentState :=
  let noSql : AgentState :=
    { state with current_step := .ERROR, error_message := some "검증할 SQL 쿼리가 없습니다." }
  match state.sql_result with
  | none => noSql
  | some sr =>
    if sr.sql_query = "" then noSql
    else
      let original_sql := sr.sql_query
      let syntax_errors := basic_syntax_check original_sql
      let logic_warnings := check_table_column_references original_sql schema_data
      if syntax_errors.isEmpty then
        validator_finish state sr
          { is_valid := true
            syntax_errors := []
            logic_warnings := logic_warnings
            suggestions := if logic_warnings.isEmpty then ["쿼리가 유효합니다."]
              else ["경고사항을 확인해주세요."]
            final_sql := original_sql }
      else
        match llm with
        | .jsonData d => validator_finish state sr (validator_recheck original_sql syntax_errors d)
        | .sqlBlock extracted =>
          validator_finish state sr (validator_recheck original_sql syntax_errors
            { is_valid := syntax_errors.isEmpty
              syntax_errors := syntax_errors
              logic_warnings := logic_warnings
              suggestions := ["자동 수정 시도됨"]
              final_sql := extracted.getD original_sql })
        | .parseFail =>
          validator_finish state sr
            { is_valid := false
              syntax_errors := syntax_errors
              logic_warnings := logic_warnings
              suggestions := ["수정 응답 파싱 실패"]
              final_sql := original_sql }
        | .exn emsg =>
          { state with
              current_step := .ERROR
              error_message := some ("품질 검증 중 오류 발생: " ++ emsg)
              processing_history := state.processing_history ++ ["품질 검증 실패: " ++ emsg] }

/-! ### The other agents (src/agents/schema_analyst.py, query_planner.py,
sql_developer.py), by parse-outcome of their model calls -/

/-- Outcome of `SchemaAnalystAgent.process` (src/agents/schema_analyst.py:62-140):
JSON parsed into a result, parsing failed, or the call raised. -/
inductive SchemaOutcome where
  | success (r : SchemaAnalysisResult)
  | parseFail (emsg : String)
  | exn (emsg : String)
deriving DecidableEq

def schemaProcess (state : AgentState) (o : SchemaOutcome) : AgentState :=
  match o with
  | .success r =>
    { state with
        schema_analysis := some r
        current_step := .QUERY_PLANNING
        processing_history := state.processing_history ++
          ["스키마 분석 완료: " ++ toString r.relevant_tables.length ++ "개 테이블 식별"] }
  | .parseFail emsg =>
    { state with
        schema_analysis := some
          { relevant_tables := [], key_relationships := [], suggested_joins := []
            analysis_notes := "스키마 분석 결과 파싱 오류: " ++ emsg }
        current_step := .ERROR
        error_message := some ("스키마 분석 결과 파싱 실패: " ++ emsg) }
  | .exn emsg =>
    { state with
        current_step := .ERROR
        error_message := some ("스키마 분석 중 오류 발생: " ++ emsg)
        processing_history := state.processing_history ++ ["스키마 분석 실패: " ++ emsg] }

/-- Outcome of `QueryPlannerAgent.process` (src/agents/query_planner.py:63-...). -/
inductive PlanOutcome where
  | success (r : QueryPlan)
  | parseFail (emsg : String)
  | exn (emsg : String)
deriving DecidableEq

def plannerProcess (state : AgentState) (o : PlanOutcome) : AgentState :=
  match state.schema_analysis with
  | none =>
    { state with
        current_step := .ERROR
        error_message := some "스키마 분석 결과가 없어 쿼리 계획을 수립할 수 없습니다." }
  | some _ =>
    match o with
    | .success r =>
      { state with
          query_plan := some r
          current_step := .SQL_DEVELOPMENT
          processing_history := state.processing_history ++
            ["쿼리 계획 수립 완료: " ++ toString r.query_steps.length ++ "단계, 복잡도 "
              ++ r.complexity_level] }
    | .parseFail emsg =>
      { state with
          query_plan := some
            { query_steps := ["쿼리 계획 파싱 오류: " ++ emsg], join_strategy := []
              subquery_structure := [], complexity_level := "알 수 없음"
              estimated_performance := "계획 파싱 실패" }
          current_step := .ERROR
          error_message := some ("쿼리 계획 파싱 실패: " ++ emsg) }
    | .exn emsg =>
      { state with
          current_step := .ERROR
          error_message := some ("쿼리 계획 수립 중 오류 발생: " ++ emsg)
          processing_history := state.processing_history ++ ["쿼리 계획 실패: " ++ emsg] }

/-- Outcome of `SQLDeveloperAgent.process` (src/agents/sql_developer.py:60-191):
either a branch reached `QUALITY_VALIDATION` with a generated `SQLResult`
(JSON path, sql nonempty; or fallback extraction, sql nonempty), or the
fallback extraction came back empty, or the call raised. -/
inductive DevOutcome where
  | success (r : SQLResult)
  | fallbackEmpty (emsg : String)
  | exn (emsg : String)
deriving DecidableEq

def devProcess (state : AgentState) (o : DevOutcome) : AgentState :=
  if state.query_plan = none ∨ state.schema_analysis = none then
    { state with
        current_step := .ERROR
        error_message := some "쿼리 계획 또는 스키마 분석 결과가 없어 SQL을 생성할 수 없습니다." }
  else
    match o with
    | .success r =>
      { state with
          sql_result := some r
          current_step := .QUALITY_VALIDATION
          processing_history := state.processing_history ++
            ["SQL 생성 완료: " ++ toString r.expected_columns.length ++ "개 컬럼 예상"] }
    | .fallbackEmpty emsg =>
      { state with
          sql_result := some
            { sql_query := "", explanation := "SQL 파싱 오류로 인한 대체 추출: " ++ emsg
              performance_notes := "파싱 오류로 성능 분석 불가", expected_columns := [] }
          current_step := .ERROR
          error_message := some ("SQL 생성 파싱 실패: " ++ emsg) }
    | .exn emsg =>
      { state with
          current_step := .ERROR
          error_message := some ("SQL 생성 중 오류 발생: " ++ emsg)
          processing_history := state.processing_history ++ ["SQL 생성 실패: " ++ emsg] }

/-! ### `TextToSQLOrchestrator` routing and workflow (src/orchestrator.py) -/

/-- `TextToSQLOrchestrator._route_after_schema_analysis`
(src/orchestrator.py:169-173). -/
def route_after_schema_analysis (state : AgentState) : String :=
  if state.current_step = .QUERY_PLANNING then "query_planner" else "error"

/-- `TextToSQLOrchestrator._route_after_query_planning`
(src/orchestrator.py:175-179). -/
def route_after_query_planning (state : AgentState) : String :=
  if state.current_step = .SQL_DEVELOPMENT then "sql_developer" else "error"

/-- `TextToSQLOrchestrator._route_after_sql_development`
(src/orchestrator.py:181-185). -/
def route_after_sql_development (state : AgentState) : String :=
  if state.current_step = .QUALITY_VALIDATION then "quality_validator" else "error"

/-- `TextToSQLOrchestrator._route_after_validation`
(src/orchestrator.py:187-196). -/
def route_after_validation (enable_sql_execution : Bool) (state : AgentState) : String :=
  if enable_sql_execution then
    if state.current_step = .SQL_EXECUTION then "sql_executor" else "error"
  else
    if state.current_step = .COMPLETED then "end" else "error"

/-- `TextToSQLOrchestrator._route_after_execution`
(src/orchestrator.py:198-204). -/
def route_after_execution (state : AgentState) : String :=
  if state.current_step = .COMPLETED then "end"
  else if state.current_step = .SQL_DEVELOPMENT then "sql_developer"
  else "error"

/-- Workflow nodes of `_build_workflow` (src/orchestrator.py:37-115);
`endNode` is LangGraph's `END`. -/
inductive Node where
  | schema_analyst
  | query_planner
  | sql_developer
  | quality_validator
  | sql_executor
  | error_handler
  | endNode
deriving DecidableEq

/-- External inputs consumed by one node execution: the parse outcome of
each agent's model call, and the executor's database result. -/
structure Oracle where
  schemaOut : SchemaOutcome
  planOut : PlanOutcome
  devOut : DevOutcome
  valOut : ValidatorOutcome
  execRes : ExecResult
  judgeOut : JudgeOutcome
deriving DecidableEq

/-- One LangGraph superstep: run the current node and follow its conditional
edges (src/orchestrator.py:37-115, 162-167). A route label absent from a
node's edge dictionary cannot occur; the catch-all arm goes to the error
handler like the "error" label. -/
def pipelineStep (enable_sql_execution : Bool) (schema_data : List (String × String))
    (n : Node) (state : AgentState) (o : Oracle) : Node × AgentState :=
  match n with
  | .schema_analyst =>
    let st := schemaProcess state o.schemaOut
    (if route_after_schema_analysis st = "query_planner" then .query_planner
     else .error_handler, st)
  | .query_planner =>
    let st := plannerProcess state o.planOut
    (if route_after_query_planning st = "sql_developer" then .sql_developer
     else .error_handler, st)
  | .sql_developer =>
    let st := devProcess state o.devOut
    (if route_after_sql_development st = "quality_validator" then .quality_validator
     else .error_handler, st)
  | .quality_validator =>
    let st := validatorProcess schema_data state o.valOut
    if enable_sql_execution then
      (if route_after_validation true st = "sql_executor" then .sql_executor
       else .error_handler, st)
    else
      (if route_after_validation false st = "end" then .endNode
       else .error_handler, st)
  | .sql_executor =>
    let st := sqlExecProcess state o.execRes o.judgeOut
    (if route_after_execution st = "end" then .endNode
     else if route_after_execution st = "sql_developer" then .sql_developer
     else .error_handler, st)
  | .error_handler => (.endNode, { state with current_step := .ERROR })
  | .endNode => (.endNode, state)

/-- A pipeline run: start at the entry point and iterate supersteps, one
oracle per node execution, until `END` (or the oracle stream is exhausted,
standing for LangGraph's recursion limit). -/
def pipelineRun (enable_sql_execution : Bool) (schema_data : List (String × String)) :
    Node → AgentState → List Oracle → AgentState
  | _, state, [] => state
  | .endNode, state, _ :: _ => state
  | n, state, o :: os =>
    let p := pipelineStep enable_sql_execution schema_data n state o
    pipelineRun enable_sql_execution schema_data p.1 p.2 os

/-- The initial state of `convert_text_to_sql` (src/orchestrator.py:215-219). -/
def initialState (user_query : String) : AgentState :=
  { user_query := user_query, current_step := .SCHEMA_ANALYSIS }

/-- Verification predicate: at most one of the final-SQL and error-message
fields is populated. -/
def NeverBoth (st : AgentState) : Prop :=
  st.final_sql = none ∨ st.error_message = none

/-- Run invariant of the workflow graph: the executor node is never entered,
the agent nodes are entered with both output fields still unset, and the
error handler and `END` preserve `NeverBoth`. -/
def StInv : Node → AgentState → Prop
  | .sql_executor, _ => False
  | .error_handler, st => NeverBoth st
  | .endNode, st => NeverBoth st
  | _, st => st.final_sql = none ∧ st.error_message = none

/-! ### Helper lemmas for the string scan and span extraction -/

/-- Left-boundary condition of a whole-word match whose match position is
right after the prefix `a`, given scan carry `prevW`. -/
def LeftOk (prevW : Bool) (a : List Char) : Prop :=
  (a = [] ∧ prevW = false) ∨ ∃ a0 c, a = a0 ++ [c] ∧ isWordChar c = false

lemma scanWord_iff (pat : List Char) (hp : pat ≠ []) :
    ∀ (s : List Char) (prevW : Bool),
      scanWord pat prevW s = true ↔
        ∃ a b, s = a ++ pat ++ b ∧ LeftOk prevW a ∧ boundaryOk b = true := by
  intro s
  induction s with
  | nil =>
    intro prevW
    simp only [scanWord]
    constructor
    · intro h; exact absurd h (by simp)
    · rintro ⟨a, b, habs, -, -⟩
      exfalso
      have hl := congrArg List.length habs
      simp at hl
      rcases pat with _ | ⟨p, ps⟩
      · exact hp rfl
      · simp at hl; omega
  | cons c cs ih =>
    intro prevW
    simp only [scanWord, Bool.or_eq_true, Bool.and_eq_true, Bool.not_eq_true']
    constructor
    · rintro (⟨hprev, hmatch⟩ | htail)
      · simp only [matchHere, Bool.and_eq_true, List.isPrefixOf_iff_prefix] at hmatch
        obtain ⟨⟨t, ht⟩, hbd⟩ := hmatch
        refine ⟨[], t, by simpa using ht.symm, Or.inl ⟨rfl, hprev⟩, ?_⟩
        rwa [← ht, List.drop_left] at hbd
      · obtain ⟨a, b, hcs, hleft, hbd⟩ := (ih (isWordChar c)).mp htail
        refine ⟨c :: a, b, by simp [hcs], ?_, hbd⟩
        rcases hleft with ⟨ha, hw⟩ | ⟨a0, c0, ha, hw⟩
        · exact Or.inr ⟨[], c, by simp [ha], hw⟩
        · exact Or.inr ⟨c :: a0, c0, by simp [ha], hw⟩
    · rintro ⟨a, b, habs, hleft, hbd⟩
      rcases a with _ | ⟨a1, a'⟩
      · simp only [List.nil_append] at habs
        rcases hleft with ⟨-, hprev⟩ | ⟨a0, c0, ha, -⟩
        · refine Or.inl ⟨hprev, ?_⟩
          simp only [matchHere, Bool.and_eq_true, List.isPrefixOf_iff_prefix]
          constructor
          · exact ⟨b, habs.symm⟩
          · rw [habs, List.drop_left]; exact hbd
        · exact absurd ha (by simp)
      · simp only [List.cons_append] at habs
        injection habs with hc hcs
        refine Or.inr ((ih (isWordChar c)).mpr ⟨a', b, hcs, ?_, hbd⟩)
        rcases hleft with ⟨ha, -⟩ | ⟨a0, c0, ha, hw⟩
        · exact absurd ha (by simp)
        · rcases a0 with _ | ⟨d, a0'⟩
          · simp only [List.nil_append] at ha
            injection ha with ha1 ha2
            refine Or.inl ⟨ha2, ?_⟩
            rw [hc, ha1]; exact hw
          · simp only [List.cons_append] at ha
            injection ha with hd ha'
            exact Or.inr ⟨a0', c0, ha', hw⟩

lemma containsWord_iff (pat : List Char) (hp : pat ≠ []) (s : List Char) :
    containsWord pat s = true ↔
      ∃ a b, s = a ++ pat ++ b
        ∧ (a = [] ∨ ∃ a0 c, a = a0 ++ [c] ∧ isWordChar c = false)
        ∧ boundaryOk b = true := by
  rw [containsWord, scanWord_iff pat hp]
  constructor
  · rintro ⟨a, b, h1, h2, h3⟩
    refine ⟨a, b, h1, ?_, h3⟩
    rcases h2 with ⟨ha, -⟩ | h
    · exact Or.inl ha
    · exact Or.inr h
  · rintro ⟨a, b, h1, h2, h3⟩
    refine ⟨a, b, h1, ?_, h3⟩
    rcases h2 with ha | h
    · exact Or.inl ⟨ha, rfl⟩
    · exact Or.inr h

lemma boundaryOk_append_cons {b : List Char} {c : Char} (post : List Char)
    (hb : boundaryOk b = true) (hc : isWordChar c = false) :
    boundaryOk (b ++ c :: post) = true := by
  cases b with
  | nil => simpa [boundaryOk]
  | cons d ds => simpa [boundaryOk] using hb

/-- A whole-word match inside a span flanked by non-word characters is a
whole-word match of the surrounding string. -/
lemma containsWord_flank {pat s : List Char} (pre post : List Char) {cL cR : Char}
    (hL : isWordChar cL = false) (hR : isWordChar cR = false) (hp : pat ≠ [])
    (h : containsWord pat s = true) :
    containsWord pat (pre ++ cL :: (s ++ cR :: post)) = true := by
  obtain ⟨a, b, hs, hleft, hbd⟩ := (containsWord_iff pat hp s).mp h
  refine (containsWord_iff pat hp _).mpr
    ⟨pre ++ cL :: a, b ++ cR :: post, ?_, ?_, boundaryOk_append_cons post hbd hR⟩
  · rw [hs]; simp
  · rcases hleft with ha | ⟨a0, c0, ha, hw⟩
    · exact Or.inr ⟨pre, cL, by simp [ha], hL⟩
    · exact Or.inr ⟨pre ++ cL :: a0, c0, by simp [ha], hw⟩

/-- Dropping a leading block that ends in a non-word character from the
pattern preserves whole-word containment. -/
lemma containsWord_of_concat {p0 q s : List Char} {c : Char}
    (hw : isWordChar c = false) (hq : q ≠ [])
    (h : containsWord ((p0 ++ [c]) ++ q) s = true) :
    containsWord q s = true := by
  have hpq : (p0 ++ [c]) ++ q ≠ [] := by simp
  obtain ⟨a, b, hs, hleft, hbd⟩ := (containsWord_iff _ hpq s).mp h
  refine (containsWord_iff q hq s).mpr ⟨a ++ (p0 ++ [c]), b, ?_, ?_, hbd⟩
  · rw [hs]; simp
  · exact Or.inr ⟨a ++ p0, c, by simp, hw⟩

lemma findSubqueriesAux_congr : ∀ (f1 f2 : Nat) (s : List Char),
    s.length ≤ f1 → s.length ≤ f2 → findSubqueriesAux f1 s = findSubqueriesAux f2 s := by
  intro f1
  induction f1 with
  | zero =>
    intro f2 s h1 h2
    have hs : s = [] := List.length_eq_zero.mp (Nat.le_zero.mp h1)
    subst hs
    cases f2 <;> rfl
  | succ f1 ih =>
    intro f2 s h1 h2
    cases f2 with
    | zero =>
      have hs : s = [] := List.length_eq_zero.mp (Nat.le_zero.mp h2)
      subst hs
      rfl
    | succ f2 =>
      cases s with
      | nil => rfl
      | cons c rest =>
        simp only [List.length_cons, Nat.add_le_add_iff_right] at h1 h2
        simp only [findSubqueriesAux]
        by_cases hc : c = '('
        · rw [if_pos hc, if_pos hc]
          rcases hdw : rest.dropWhile (fun d => !(d == ')')) with _ | ⟨d, tail⟩
          · exact ih f2 rest h1 h2
          · have hd : d = ')' := by
              have hmem := List.head_dropWhile_not (fun d => !(d == ')')) rest (by simp [hdw])
              simp [hdw] at hmem
              exact hmem
            subst hd
            have htail : tail.length ≤ rest.length := by
              have := length_lt_of_dropWhile_cons hdw
              omega
            by_cases hce : (rest.takeWhile (fun d => !(d == ')'))).isEmpty
            · simp only [hce]
              exact ih f2 rest h1 h2
            · have hrw := ih f2 tail (le_trans htail h1) (le_trans htail h2)
              simp [Bool.eq_false_iff.mpr hce, hrw]
        · rw [if_neg hc, if_neg hc]
          exact ih f2 rest h1 h2

lemma findSubqueries_nil : findSubqueries [] = [] := rfl

lemma findSubqueries_cons_ne {c : Char} (hc : ¬c = '(') (rest : List Char) :
    findSubqueries (c :: rest) = findSubqueries rest := by
  unfold findSubqueries
  simp only [List.length_cons, findSubqueriesAux]
  rw [if_neg hc]

lemma findSubqueries_lparen_match (rest tail : List Char)
    (hdrop : rest.dropWhile (fun d => !(d == ')')) = ')' :: tail)
    (hcontent : (rest.takeWhile (fun d => !(d == ')'))).isEmpty = false) :
    findSubqueries ('(' :: rest)
      = rest.takeWhile (fun d => !(d == ')')) :: findSubqueries tail := by
  unfold findSubqueries
  simp only [List.length_cons, findSubqueriesAux, if_true]
  rw [hdrop]
  have htail : tail.length ≤ rest.length := by
    have := length_lt_of_dropWhile_cons hdrop
    omega
  simp [hcontent, findSubqueriesAux_congr rest.length tail.length tail htail le_rfl]

lemma findSubqueries_lparen_empty (rest tail : List Char)
    (hdrop : rest.dropWhile (fun d => !(d == ')')) = ')' :: tail)
    (hcontent : (rest.takeWhile (fun d => !(d == ')'))).isEmpty = true) :
    findSubqueries ('(' :: rest) = findSubqueries rest := by
  unfold findSubqueries
  simp only [List.length_cons, findSubqueriesAux, if_true]
  rw [hdrop]
  simp [hcontent]

lemma findSubqueries_lparen_none (rest : List Char)
    (hnone : ∀ tail, List.dropWhile (fun d => !(d == ')')) rest = ')' :: tail → False) :
    findSubqueries ('(' :: rest) = findSubqueries rest := by
  unfold findSubqueries
  simp only [List.length_cons, findSubqueriesAux, if_true]

/-- Every span returned by `findSubqueries` sits between a literal `'('`
and a literal `')'` in the scanned string. -/
lemma findSubqueries_mem {s sub : List Char} (h : sub ∈ findSubqueries s) :
    ∃ pre post, s = pre ++ '(' :: (sub ++ ')' :: post) := by
  suffices H : ∀ (n : Nat) (s sub : List Char), s.length ≤ n → sub ∈ findSubqueries s →
      ∃ pre post, s = pre ++ '(' :: (sub ++ ')' :: post) from H s.length s sub le_rfl h
  intro n
  induction n with
  | zero =>
    intro s sub hlen h
    have hs : s = [] := List.length_eq_zero.mp (Nat.le_zero.mp hlen)
    subst hs
    rw [findSubqueries_nil] at h
    simp at h
  | succ n ih =>
    intro s sub hlen h
    cases s with
    | nil =>
      rw [findSubqueries_nil] at h
      simp at h
    | cons c rest =>
      simp only [List.length_cons, Nat.add_le_add_iff_right] at hlen
      by_cases hc : c = '('
      · subst hc
        rcases hdw : rest.dropWhile (fun d => !(d == ')')) with _ | ⟨d, tail⟩
        · rw [findSubqueries_lparen_none rest (fun tail hh => by rw [hdw] at hh; cases hh)] at h
          obtain ⟨pre, post, hrest⟩ := ih rest sub hlen h
          exact ⟨'(' :: pre, post, by simp [hrest]⟩
        · have hd : d = ')' := by
            have hmem := List.head_dropWhile_not (fun d => !(d == ')')) rest (by simp [hdw])
            simp [hdw] at hmem
            exact hmem
          subst hd
          rcases hce : (rest.takeWhile (fun d => !(d == ')'))).isEmpty
          · rw [findSubqueries_lparen_match rest tail hdw hce] at h
            have hsplit : rest = rest.takeWhile (fun d => !(d == ')')) ++ ')' :: tail := by
              conv_lhs => rw [← List.takeWhile_append_dropWhile (fun d => !(d == ')')) rest]
              rw [hdw]
            rcases List.mem_cons.mp h with hsub | htail
            · refine ⟨[], tail, ?_⟩
              conv_lhs => rw [hsplit]
              rw [hsub]
              simp
            · have htlen : tail.length ≤ n := by
                have := length_lt_of_dropWhile_cons hdw
                omega
              obtain ⟨pre, post, htl⟩ := ih tail sub htlen htail
              refine ⟨'(' :: (rest.takeWhile (fun d => !(d == ')')) ++ ')' :: pre), post, ?_⟩
              conv_lhs => rw [hsplit]
              rw [htl]
              simp
          · rw [findSubqueries_lparen_empty rest tail hdw hce] at h
            obtain ⟨pre, post, hrest⟩ := ih rest sub hlen h
            exact ⟨'(' :: pre, post, by simp [hrest]⟩
      · rw [findSubqueries_cons_ne hc rest] at h
        obtain ⟨pre, post, hrest⟩ := ih rest sub hlen h
        exact ⟨c :: pre, post, by simp [hrest]⟩

/-- `isWordChar`-freeness of the bracket characters. -/
lemma isWordChar_lparen : isWordChar '(' = false := by decide

lemma isWordChar_rparen : isWordChar ')' = false := by decide

/-- A whole-word keyword occurrence inside an extracted subquery span is a
whole-word occurrence in the scanned string itself. -/
lemma subquery_word_lift {sqlU sub pat : List Char} (hp : pat ≠ [])
    (hsub : sub ∈ findSubqueries sqlU) (h : containsWord pat sub = true) :
    containsWord pat sqlU = true := by
  obtain ⟨pre, post, heq⟩ := findSubqueries_mem hsub
  rw [heq]
  exact containsWord_flank pre post isWordChar_lparen isWordChar_rparen hp h

lemma spec_subset_forbidden : ∀ k ∈ spec_forbidden_keywords, k ∈ forbidden_keywords := by
  decide

lemma forbidden_ne_nil : ∀ k ∈ forbidden_keywords, k.toList ≠ [] := by
  decide

lemma containsWord_into_outfile {U : List Char}
    (h : containsWord "INTO OUTFILE".toList U = true) :
    containsWord "OUTFILE".toList U = true := by
  have heq : "INTO OUTFILE".toList = ("INTO".toList ++ [' ']) ++ "OUTFILE".toList := by decide
  exact containsWord_of_concat (by decide) (by decide) (heq ▸ h)

lemma containsWord_into_dumpfile {U : List Char}
    (h : containsWord "INTO DUMPFILE".toList U = true) :
    containsWord "DUMPFILE".toList U = true := by
  have heq : "INTO DUMPFILE".toList = ("INTO".toList ++ [' ']) ++ "DUMPFILE".toList := by decide
  exact containsWord_of_concat (by decide) (by decide) (heq ▸ h)

/-- If none of the 17 specification keywords occurs as a whole word, neither
does any entry of the source's 19-entry list. -/
lemma forbidden_all_false {U : List Char}
    (hno : ∀ k ∈ spec_forbidden_keywords, containsWord k.toList U = false) :
    ∀ k ∈ forbidden_keywords, containsWord k.toList U = false := by
  intro k hk
  rcases hc : containsWord k.toList U
  · rfl
  · exfalso
    simp only [forbidden_keywords, List.mem_cons, List.not_mem_nil, or_false] at hk
    rcases hk with rfl|rfl|rfl|rfl|rfl|rfl|rfl|rfl|rfl|rfl|rfl|rfl|rfl|rfl|rfl|rfl|rfl|rfl|rfl
    all_goals first
    | (rw [hno _ (by decide)] at hc
       exact Bool.false_ne_true hc)
    | (exact Bool.false_ne_true
        ((hno "OUTFILE" (by decide)) ▸ containsWord_into_outfile hc))
    | (exact Bool.false_ne_true
        ((hno "DUMPFILE" (by decide)) ▸ containsWord_into_dumpfile hc))

lemma isEmpty_false_of_ne_nil {α : Type} {l : List α} (h : l ≠ []) : l.isEmpty = false := by
  cases l with
  | nil => exact absurd rfl h
  | cons a as => rfl

lemma keyword_errors_nil_iff (U : List Char) :
    keyword_errors U = [] ↔ ∀ k ∈ forbidden_keywords, containsWord k.toList U = false := by
  rw [keyword_errors, List.filterMap_eq_nil_iff]
  constructor
  · intro h k hk
    have h2 := h k hk
    rcases hc : containsWord k.toList U
    · rfl
    · rw [hc] at h2
      simp at h2
  · intro h k hk
    rw [h k hk]
    simp

lemma subquery_errors_nil {U : List Char}
    (hno : ∀ k ∈ forbidden_keywords, containsWord k.toList U = false) :
    subquery_errors U = [] := by
  rw [subquery_errors, List.flatMap_eq_nil_iff]
  intro sub hsub
  rw [List.filterMap_eq_nil_iff]
  intro k hk
  rcases hc : containsWord k.toList sub
  · simp [hc]
  · exfalso
    have hlift := subquery_word_lift (forbidden_ne_nil k hk) hsub hc
    rw [hno k hk] at hlift
    simp at hlift

/-- Claim C4: the Safety Gate returns an unsafe verdict with a non-empty
rule-specific error list exactly when the specification's rejection
condition holds (no `SELECT` start after uppercasing and stripping, a
whole-word forbidden keyword — including inside parenthesised subquery
spans, which rule 3 re-reports but never detects beyond rule 2 —, a comment
marker, or more than one `';'`); otherwise it returns a safe verdict with an
empty error list. Always a returned value, never an exception (the embedded
function is total). Stated for ASCII inputs, where the embedded string
primitives coincide with Python's. -/
theorem C4_safety_gate_matches_spec (sql : String)
    (hascii : ∀ c ∈ sql.toList, c.toNat < 128) :
    (specSafetyViolation sql →
      (validate_sql_safety sql).1 = false ∧ (validate_sql_safety sql).2 ≠ [])
    ∧ (¬specSafetyViolation sql → validate_sql_safety sql = (true, [])) := by
  rcases hsel : "SELECT".toList.isPrefixOf (pyStrip (sql.toList.map Char.toUpper)) with _ | _
  · have hv : validate_sql_safety sql = (false, ["SELECT 쿼리만 허용됩니다."]) := by
      unfold validate_sql_safety
      rw [hsel]
      rfl
    constructor
    · intro _
      rw [hv]
      exact ⟨rfl, by simp⟩
    · intro hnv
      exact absurd (Or.inl fun hcontra => Bool.false_ne_true (hsel ▸ hcontra)) hnv
  · have hv : validate_sql_safety sql = ((safety_errors sql).isEmpty, safety_errors sql) := by
      unfold validate_sql_safety
      rw [hsel]
      rfl
    constructor
    · rintro (hsel' | ⟨k, hk, hck⟩ | hcm | hsemi)
      · exact absurd hsel hsel'
      · have herr : safety_errors sql ≠ [] := by
          unfold safety_errors
          intro hnil
          simp only [List.append_eq_nil] at hnil
          rw [keyword_errors_nil_iff] at hnil
          have hfalse := hnil.1.1.1 k (spec_subset_forbidden k hk)
          rw [hfalse] at hck
          simp at hck
        rw [hv]
        exact ⟨isEmpty_false_of_ne_nil herr, herr⟩
      · have hcval : comment_errors sql = ["주석은 허용되지 않습니다."] := by
          unfold comment_errors
          rcases hcm with h | h | h
          · rw [if_pos (by simp only [h, Bool.true_or])]
          · rw [if_pos (by simp only [h, Bool.true_or, Bool.or_true])]
          · rw [if_pos (by simp only [h, Bool.or_true])]
        have herr : safety_errors sql ≠ [] := by
          unfold safety_errors
          rw [hcval]
          intro hnil
          simp only [List.append_eq_nil] at hnil
          exact List.cons_ne_nil _ _ hnil.1.2
        rw [hv]
        exact ⟨isEmpty_false_of_ne_nil herr, herr⟩
      · have hsval : multi_query_errors sql = ["다중 쿼리는 허용되지 않습니다."] := by
          unfold multi_query_errors
          rw [if_pos hsemi]
        have herr : safety_errors sql ≠ [] := by
          unfold safety_errors
          rw [hsval]
          intro hnil
          simp only [List.append_eq_nil] at hnil
          exact List.cons_ne_nil _ _ hnil.2
        rw [hv]
        exact ⟨isEmpty_false_of_ne_nil herr, herr⟩
    · intro hnv
      have hnkw : ∀ k ∈ spec_forbidden_keywords,
          containsWord k.toList (pyStrip (sql.toList.map Char.toUpper)) = false := by
        intro k hk
        rcases hc : containsWord k.toList (pyStrip (sql.toList.map Char.toUpper))
        · rfl
        · exact absurd (Or.inr (Or.inl ⟨k, hk, hc⟩)) hnv
      have hncm : comment_errors sql = [] := by
        rcases h1 : listHasSub "--".toList sql.toList
        · rcases h2 : listHasSub "/*".toList sql.toList
          · rcases h3 : listHasSub "*/".toList sql.toList
            · unfold comment_errors
              rw [if_neg (by simp only [h1, h2, h3]; simp)]
            · exact absurd (Or.inr (Or.inr (Or.inl (Or.inr (Or.inr h3))))) hnv
          · exact absurd (Or.inr (Or.inr (Or.inl (Or.inr (Or.inl h2))))) hnv
        · exact absurd (Or.inr (Or.inr (Or.inl (Or.inl h1)))) hnv
      have hnsemi : multi_query_errors sql = [] := by
        by_cases hq : 1 < sql.toList.count ';'
        · exact absurd (Or.inr (Or.inr (Or.inr hq))) hnv
        · unfold multi_query_errors
          rw [if_neg hq]
      have hforb := forbidden_all_false hnkw
      have hse : safety_errors sql = [] := by
        unfold safety_errors
        rw [(keyword_errors_nil_iff _).mpr hforb, subquery_errors_nil hforb, hncm, hnsemi]
        rfl
      rw [hv, hse]
      rfl

/-- Witness for C4: the spec's subquery-injection example is rejected with a
non-empty error list, and a plain single-statement SELECT passes with an
empty error list. -/
theorem C4_safety_gate_witness :
    (specSafetyViolation "SELECT * FROM (SELECT * FROM t WHERE 1=1; DROP TABLE t) x"
      ∧ (validate_sql_safety "SELECT * FROM (SELECT * FROM t WHERE 1=1; DROP TABLE t) x").1 = false
      ∧ (validate_sql_safety "SELECT * FROM (SELECT * FROM t WHERE 1=1; DROP TABLE t) x").2 ≠ [])
    ∧ (¬specSafetyViolation "SELECT a FROM tb_user WHERE x = 1;"
      ∧ validate_sql_safety "SELECT a FROM tb_user WHERE x = 1;" = (true, [])) := by
  constructor
  · have h := C4_safety_gate_matches_spec
      "SELECT * FROM (SELECT * FROM t WHERE 1=1; DROP TABLE t) x" (by decide)
    have hviol : specSafetyViolation
        "SELECT * FROM (SELECT * FROM t WHERE 1=1; DROP TABLE t) x" := by decide
    exact ⟨hviol, (h.1 hviol).1, (h.1 hviol).2⟩
  · have h := C4_safety_gate_matches_spec "SELECT a FROM tb_user WHERE x = 1;" (by decide)
    have hok : ¬specSafetyViolation "SELECT a FROM tb_user WHERE x = 1;" := by decide
    exact ⟨hok, h.2 hok⟩

/-- Claim C5 counterexample: the Safety Gate does NOT accept
`SELECT name FROM tb_user WHERE name = 'DROP THE MIC'` — the naive
word-boundary pattern matches `DROP` inside the string literal, so
`validate_sql_safety` returns an unsafe verdict. -/
theorem C5_counterexample :
    (validate_sql_safety "SELECT name FROM tb_user WHERE name = 'DROP THE MIC'").1 = false := by
  decide

/-- Claim C5 amended: on `SELECT name FROM tb_user WHERE name = 'DROP THE
MIC'` the Safety Gate returns an unsafe verdict whose single error names the
forbidden keyword `DROP` found inside the string literal (the known
false-positive of naive whole-word matching on literals). -/
theorem C5_amended_string_literal_false_positive :
    validate_sql_safety "SELECT name FROM tb_user WHERE name = 'DROP THE MIC'"
      = (false, ["금지된 키워드가 포함되어 있습니다: DROP"]) := by
  rfl

/-- Claim C9: any SQL string that contains one of the DML/DQL keywords
(uppercased substring check), has an even number of single quotes, has
unbalanced parentheses, and does not end in `';'` after stripping, receives
exactly two syntax errors from the Static Validator's structural check. -/
theorem C9_two_syntax_errors (sql : String)
    (hkw : (["SELECT", "INSERT", "UPDATE", "DELETE"].any
      (fun keyword => listHasSub keyword.toList (sql.toList.map Char.toUpper))) = true)
    (hpar : sql.toList.count '(' ≠ sql.toList.count ')')
    (hquote : sql.toList.count '\'' % 2 = 0)
    (hsemi : endsWithSemi sql.toList = false) :
    (basic_syntax_check sql).length = 2 := by
  simp only [basic_syntax_check]
  rw [if_pos hkw, if_pos hpar, if_neg (by omega), if_neg (by rw [hsemi]; simp)]
  rfl

/-- Witness for C9 at the concrete query `SELECT (a`. -/
theorem C9_two_syntax_errors_witness :
    (["SELECT", "INSERT", "UPDATE", "DELETE"].any
      (fun keyword => listHasSub keyword.toList ("SELECT (a".toList.map Char.toUpper))) = true
    ∧ "SELECT (a".toList.count '(' ≠ "SELECT (a".toList.count ')'
    ∧ "SELECT (a".toList.count '\'' % 2 = 0
    ∧ endsWithSemi "SELECT (a".toList = false
    ∧ (basic_syntax_check "SELECT (a").length = 2 :=
  ⟨by decide, by decide, by decide, by decide,
    C9_two_syntax_errors "SELECT (a" (by decide) (by decide) (by decide) (by decide)⟩

/-- Claim C6: the deterministic Result Judge fallback returns, for a failed
execution, invalid with retry; for zero rows, invalid with retry and reason
"결과 없음"; for more than 1000 rows, invalid with retry and reason
"결과 과다"; and for 1 to 1000 rows inclusive, valid with no retry. The
verdict is a function of the execution result alone (the function takes no
other input). -/
theorem C6_basic_result_analysis_cases (e : ExecResult) :
    (e.success = false →
      (basic_result_analysis e).is_valid = false
      ∧ (basic_result_analysis e).needs_retry = true)
    ∧ (e.success = true → e.row_count = 0 →
      (basic_result_analysis e).is_valid = false
      ∧ (basic_result_analysis e).needs_retry = true
      ∧ (basic_result_analysis e).retry_reason = "결과 없음")
    ∧ (e.success = true → 1000 < e.row_count →
      (basic_result_analysis e).is_valid = false
      ∧ (basic_result_analysis e).needs_retry = true
      ∧ (basic_result_analysis e).retry_reason = "결과 과다")
    ∧ (e.success = true → 1 ≤ e.row_count → e.row_count ≤ 1000 →
      (basic_result_analysis e).is_valid = true
      ∧ (basic_result_analysis e).needs_retry = false) := by
  refine ⟨?_, ?_, ?_, ?_⟩
  · intro hs
    simp [basic_result_analysis, hs]
  · intro hs hr
    simp [basic_result_analysis, hs, hr]
  · intro hs hr
    have h0 : e.row_count ≠ 0 := by omega
    simp [basic_result_analysis, hs, h0, hr]
  · intro hs h1 h2
    have h0 : e.row_count ≠ 0 := by omega
    have h3 : ¬(1000 < e.row_count) := by omega
    simp [basic_result_analysis, hs, h0, h3]

/-- Witness for C6 at concrete execution results: 0 rows, 1001 rows,
1000 rows, and a failed execution. -/
theorem C6_basic_result_analysis_witness :
    ((basic_result_analysis { success := true, row_count := 0 }).needs_retry = true
      ∧ (basic_result_analysis { success := true, row_count := 0 }).retry_reason = "결과 없음")
    ∧ ((basic_result_analysis { success := true, row_count := 1001 }).is_valid = false
      ∧ (basic_result_analysis { success := true, row_count := 1001 }).retry_reason = "결과 과다")
    ∧ ((basic_result_analysis { success := true, row_count := 1000 }).is_valid = true
      ∧ (basic_result_analysis { success := true, row_count := 1000 }).needs_retry = false)
    ∧ (basic_result_analysis { success := false }).needs_retry = true := by
  refine ⟨⟨?_, ?_⟩, ⟨?_, ?_⟩, ⟨?_, ?_⟩, ?_⟩
  · exact ((C6_basic_result_analysis_cases _).2.1 rfl rfl).2.1
  · exact ((C6_basic_result_analysis_cases _).2.1 rfl rfl).2.2
  · exact ((C6_basic_result_analysis_cases _).2.2.1 rfl (by decide)).1
  · exact ((C6_basic_result_analysis_cases _).2.2.1 rfl (by decide)).2.2
  · exact ((C6_basic_result_analysis_cases _).2.2.2 rfl (by decide) (by decide)).1
  · exact ((C6_basic_result_analysis_cases _).2.2.2 rfl (by decide) (by decide)).2
  · exact ((C6_basic_result_analysis_cases _).1 rfl).2

lemma validatorProcess_step_cases (schema_data : List (String × String))
    (state : AgentState) (llm : ValidatorOutcome) :
    (validatorProcess schema_data state llm).current_step = ProcessingStep.COMPLETED
    ∨ (validatorProcess schema_data state llm).current_step = ProcessingStep.ERROR := by
  unfold validatorProcess validator_finish
  repeat' split <;> (try simp)

/-- Claim C1 (code bug): with SQL execution enabled, the routing function
after quality validation NEVER selects the SQL-execution stage — the
validator exits with `COMPLETED` (on success) or `ERROR`, never with
`SQL_EXECUTION`, and `_route_after_validation` demands `SQL_EXECUTION`, so
every validated state is routed to the error handler. In particular a
concrete run whose validation succeeds (valid SQL, `COMPLETED`) is routed to
"error" instead of "sql_executor". -/
theorem C1_validation_routing_never_reaches_executor :
    (∀ (schema_data : List (String × String)) (state : AgentState) (llm : ValidatorOutcome),
      route_after_validation true (validatorProcess schema_data state llm) = "error")
    ∧ ((validatorProcess []
          { user_query := "유저 목록"
            current_step := .QUALITY_VALIDATION
            sql_result := some { sql_query := "SELECT * FROM tb_user;", explanation := "모든 유저", performance_notes := "", expected_columns := [] } } .parseFail).current_step
        = ProcessingStep.COMPLETED
      ∧ (validatorProcess []
          { user_query := "유저 목록"
            current_step := .QUALITY_VALIDATION
            sql_result := some { sql_query := "SELECT * FROM tb_user;", explanation := "모든 유저", performance_notes := "", expected_columns := [] } } .parseFail).validation_result.map
            ValidationResult.is_valid = some true
      ∧ route_after_validation true (validatorProcess []
          { user_query := "유저 목록"
            current_step := .QUALITY_VALIDATION
            sql_result := some { sql_query := "SELECT * FROM tb_user;", explanation := "모든 유저", performance_notes := "", expected_columns := [] } } .parseFail) = "error") := by
  refine ⟨?_, by decide, by decide, by decide⟩
  intro schema_data state llm
  rcases validatorProcess_step_cases schema_data state llm with h | h <;>
    simp [route_after_validation, h]

/-- Claim C10: when the structural check finds no defects, the validator
marks the result valid with the original SQL as `final_sql` and exits
`COMPLETED` (routing to "end" when execution is disabled), regardless of
what the table-reference check reports: referential warnings are recorded
as `logic_warnings` only, and no correction round happens (the outcome does
not depend on the model-call oracle). -/
theorem C10_referential_warnings_never_gate (schema_data : List (String × String))
    (state : AgentState) (sr : SQLResult) (llm llm' : ValidatorOutcome)
    (hsr : state.sql_result = some sr)
    (hne : sr.sql_query ≠ "")
    (hclean : basic_syntax_check sr.sql_query = []) :
    validatorProcess schema_data state llm = validatorProcess schema_data state llm'
    ∧ (validatorProcess schema_data state llm).validation_result = some
        { is_valid := true
          syntax_errors := []
          logic_warnings := check_table_column_references sr.sql_query schema_data
          suggestions :=
            if (check_table_column_references sr.sql_query schema_data).isEmpty then
              ["쿼리가 유효합니다."]
            else ["경고사항을 확인해주세요."]
          final_sql := some sr.sql_query }
    ∧ (validatorProcess schema_data state llm).final_sql = some sr.sql_query
    ∧ (validatorProcess schema_data state llm).current_step = ProcessingStep.COMPLETED
    ∧ route_after_validation false (validatorProcess schema_data state llm) = "end" := by
  have key : ∀ llm0 : ValidatorOutcome,
      validatorProcess schema_data state llm0 = validator_finish state sr
        { is_valid := true
          syntax_errors := []
          logic_warnings := check_table_column_references sr.sql_query schema_data
          suggestions :=
            if (check_table_column_references sr.sql_query schema_data).isEmpty then
              ["쿼리가 유효합니다."]
            else ["경고사항을 확인해주세요."]
          final_sql := sr.sql_query } := by
    intro llm0
    unfold validatorProcess
    rw [hsr]
    simp only [if_neg hne, hclean, List.isEmpty_nil, if_true]
  have hfin : validator_finish state sr
      { is_valid := true
        syntax_errors := []
        logic_warnings := check_table_column_references sr.sql_query schema_data
        suggestions :=
          if (check_table_column_references sr.sql_query schema_data).isEmpty then
            ["쿼리가 유효합니다."]
          else ["경고사항을 확인해주세요."]
        final_sql := sr.sql_query } =
      { state with
          validation_result := some
            { is_valid := true
              syntax_errors := []
              logic_warnings := check_table_column_references sr.sql_query schema_data
              suggestions :=
                if (check_table_column_references sr.sql_query schema_data).isEmpty then
                  ["쿼리가 유효합니다."]
                else ["경고사항을 확인해주세요."]
              final_sql := some sr.sql_query }
          final_sql := some sr.sql_query
          explanation := some sr.explanation
          current_step := .COMPLETED
          processing_history := state.processing_history ++ ["품질 검증 완료: SQL이 유효합니다."] } := by
    unfold validator_finish
    simp
  refine ⟨by rw [key llm, key llm'], ?_, ?_, ?_, ?_⟩ <;>
    rw [key llm, hfin] <;> simp [route_after_validation]

/-- Witness for C10: a clean query referencing a table absent from the
schema — the warning is present, yet the outcome is valid/COMPLETED. -/
theorem C10_referential_warnings_never_gate_witness :
    basic_syntax_check "SELECT a FROM tb_ghost;" = []
    ∧ check_table_column_references "SELECT a FROM tb_ghost;" [("회원", "tb_user")]
        = ["테이블 'tb_ghost'이 스키마에 존재하지 않습니다."]
    ∧ (validatorProcess [("회원", "tb_user")]
        { user_query := "q"
          sql_result := some { sql_query := "SELECT a FROM tb_ghost;", explanation := "e", performance_notes := "", expected_columns := [] } } .parseFail).current_step
      = ProcessingStep.COMPLETED
    ∧ (validatorProcess [("회원", "tb_user")]
        { user_query := "q"
          sql_result := some { sql_query := "SELECT a FROM tb_ghost;", explanation := "e", performance_notes := "", expected_columns := [] } } .parseFail).final_sql
      = some "SELECT a FROM tb_ghost;" := by
  refine ⟨by decide, by decide, ?_, ?_⟩
  · exact (C10_referential_warnings_never_gate [("회원", "tb_user")]
      { user_query := "q"
        sql_result := some { sql_query := "SELECT a FROM tb_ghost;", explanation := "e", performance_notes := "", expected_columns := [] } }
      { sql_query := "SELECT a FROM tb_ghost;", explanation := "e", performance_notes := "", expected_columns := [] }
      .parseFail .parseFail rfl (by decide) (by decide)).2.2.2.1
  · exact (C10_referential_warnings_never_gate [("회원", "tb_user")]
      { user_query := "q"
        sql_result := some { sql_query := "SELECT a FROM tb_ghost;", explanation := "e", performance_notes := "", expected_columns := [] } }
      { sql_query := "SELECT a FROM tb_ghost;", explanation := "e", performance_notes := "", expected_columns := [] }
      .parseFail .parseFail rfl (by decide) (by decide)).2.2.1

lemma validator_finish_validation_result (state : AgentState) (sr : SQLResult) (vd : VData) :
    (validator_finish state sr vd).validation_result = some
      { is_valid := vd.is_valid, syntax_errors := vd.syntax_errors,
        logic_warnings := vd.logic_warnings, suggestions := vd.suggestions,
        final_sql := some vd.final_sql } := by
  simp only [validator_finish]
  split <;> rfl

/-- Claim C8 counterexample: with original SQL `SELECT` (1 structural
defect) and a model JSON declaring `is_valid: true` with corrected SQL
`UPDATE` (also 1 defect — not strictly fewer), the validator still marks the
result valid with the non-improving correction as final SQL. -/
theorem C8_counterexample :
    basic_syntax_check "SELECT" ≠ []
    ∧ ¬((basic_syntax_check "UPDATE").length < (basic_syntax_check "SELECT").length)
    ∧ (validatorProcess []
        { user_query := "q", sql_result := some { sql_query := "SELECT", explanation := "", performance_notes := "", expected_columns := [] } }
        (.jsonData { is_valid := true, final_sql := "UPDATE" })).validation_result.map
          ValidationResult.is_valid = some true
    ∧ (validatorProcess []
        { user_query := "q", sql_result := some { sql_query := "SELECT", explanation := "", performance_notes := "", expected_columns := [] } }
        (.jsonData { is_valid := true, final_sql := "UPDATE" })).validation_result.bind
          ValidationResult.final_sql = some "UPDATE" := by
  refine ⟨by decide, by decide, by decide, by decide⟩

/-- Claim C8 amended: in a correction round with a parsed JSON response, the
re-check OVERRIDES the recorded verdict only when the corrected SQL differs
from the original and has strictly fewer defects (the verdict then becomes
"corrected defect list is empty"); otherwise the model-reported verdict is
kept unchanged — so a correction with an equal or greater defect count can
still be marked valid whenever the model's JSON declares it valid. -/
theorem C8_amended_recheck_only_overrides (schema_data : List (String × String))
    (state : AgentState) (sr : SQLResult) (d : VData)
    (hsr : state.sql_result = some sr)
    (hne : sr.sql_query ≠ "")
    (herr : basic_syntax_check sr.sql_query ≠ [])
    (hdiff : d.final_sql ≠ sr.sql_query) :
    ((basic_syntax_check d.final_sql).length < (basic_syntax_check sr.sql_query).length →
      (validatorProcess schema_data state (.jsonData d)).validation_result.map
        ValidationResult.is_valid = some (basic_syntax_check d.final_sql).isEmpty)
    ∧ (¬((basic_syntax_check d.final_sql).length < (basic_syntax_check sr.sql_query).length) →
      (validatorProcess schema_data state (.jsonData d)).validation_result.map
        ValidationResult.is_valid = some d.is_valid) := by
  have hred : validatorProcess schema_data state (.jsonData d)
      = validator_finish state sr
          (validator_recheck sr.sql_query (basic_syntax_check sr.sql_query) d) := by
    unfold validatorProcess
    rw [hsr]
    simp only [if_neg hne, isEmpty_false_of_ne_nil herr, Bool.false_eq_true, if_false]
  constructor
  · intro hlt
    rw [hred, validator_finish_validation_result]
    unfold validator_recheck
    rw [if_pos hdiff]
    simp only [if_pos hlt]
    rfl
  · intro hge
    rw [hred, validator_finish_validation_result]
    unfold validator_recheck
    rw [if_pos hdiff]
    simp only [if_neg hge]
    rfl

/-- Witness for C8's amended statement at the counterexample's inputs. -/
theorem C8_amended_recheck_only_overrides_witness :
    (validatorProcess []
      { user_query := "q", sql_result := some { sql_query := "SELECT", explanation := "", performance_notes := "", expected_columns := [] } }
      (.jsonData { is_valid := true, final_sql := "UPDATE" })).validation_result.map
        ValidationResult.is_valid = some true :=
  (C8_amended_recheck_only_overrides []
    { user_query := "q", sql_result := some { sql_query := "SELECT", explanation := "", performance_notes := "", expected_columns := [] } }
    { sql_query := "SELECT", explanation := "", performance_notes := "", expected_columns := [] }
    { is_valid := true, final_sql := "UPDATE" }
    rfl (by decide) (by decide) (by decide)).2 (by decide)

/-! ### Retry budget and connection-error helpers (`SQLExecutionAgent`) -/

lemma sqlExecProcess_retry_le (state : AgentState) (e : ExecResult) (j : JudgeOutcome)
    (h : state.retry_count ≤ 20) : (sqlExecProcess state e j).retry_count ≤ 20 := by
  unfold sqlExecProcess
  cases hv : state.validation_result with
  | none => exact h
  | some vr =>
    dsimp only
    cases hq : vr.final_sql with
    | none => exact h
    | some q =>
      dsimp only
      repeat' split
      all_goals try exact h
      all_goals simp_all
      all_goals omega

lemma schemaProcess_retry (state : AgentState) (o : SchemaOutcome) :
    (schemaProcess state o).retry_count = state.retry_count := by
  cases o <;> rfl

lemma plannerProcess_retry (state : AgentState) (o : PlanOutcome) :
    (plannerProcess state o).retry_count = state.retry_count := by
  unfold plannerProcess
  cases state.schema_analysis <;> cases o <;> rfl

lemma devProcess_retry (state : AgentState) (o : DevOutcome) :
    (devProcess state o).retry_count = state.retry_count := by
  unfold devProcess
  split
  · rfl
  · cases o <;> rfl

lemma validatorProcess_retry (schema_data : List (String × String)) (state : AgentState)
    (llm : ValidatorOutcome) :
    (validatorProcess schema_data state llm).retry_count = state.retry_count := by
  unfold validatorProcess validator_finish
  cases state.sql_result with
  | none => rfl
  | some sr =>
    dsimp only
    split
    · rfl
    · split
      · split <;> rfl
      · cases llm <;> dsimp only
        any_goals rfl
        all_goals split <;> rfl

lemma pipelineStep_retry_le (enable : Bool) (schema_data : List (String × String))
    (n : Node) (state : AgentState) (o : Oracle) (h : state.retry_count ≤ 20) :
    (pipelineStep enable schema_data n state o).2.retry_count ≤ 20 := by
  cases n <;>
    simp only [pipelineStep] <;>
    first
    | exact h
    | (rw [schemaProcess_retry]; exact h)
    | (rw [plannerProcess_retry]; exact h)
    | (rw [devProcess_retry]; exact h)
    | (split <;> simp only [] <;> rw [validatorProcess_retry] <;> exact h)
    | exact sqlExecProcess_retry_le state o.execRes o.judgeOut h

lemma pipelineRun_retry_le (enable : Bool) (schema_data : List (String × String)) :
    ∀ (os : List Oracle) (n : Node) (state : AgentState), state.retry_count ≤ 20 →
      (pipelineRun enable schema_data n state os).retry_count ≤ 20 := by
  intro os
  induction os with
  | nil => intro n state h; cases n <;> exact h
  | cons o os ih =>
    intro n state h
    cases n <;> simp only [pipelineRun] <;>
      first
      | exact h
      | exact ih _ _ (pipelineStep_retry_le enable schema_data _ state o h)

/-- Claim C3: the retry counter never exceeds 20 — each execution step
preserves the bound (and every pipeline run from the initial state keeps it);
the back-edge to SQL development is taken only when the judge's analysis
signals `needs_retry` and the counter is strictly below 20, and then the
counter increments by exactly one; and a judge-requested retry at counter 20
(with execution reached, no connection error, and a non-successful verdict)
terminates in ERROR with the distinguished budget-exceeded message. -/
theorem C3_retry_budget (state : AgentState) (e : ExecResult) (j : JudgeOutcome) :
    (state.retry_count ≤ 20 → (sqlExecProcess state e j).retry_count ≤ 20)
    ∧ ((sqlExecProcess state e j).current_step = ProcessingStep.SQL_DEVELOPMENT →
        (analyze_execution_result e j).needs_retry = true
        ∧ state.retry_count < 20
        ∧ (sqlExecProcess state e j).retry_count = state.retry_count + 1)
    ∧ (∀ (vr : ValidationResult) (q : String),
        state.validation_result = some vr → vr.final_sql = some q → q ≠ "" →
        (validate_sql_safety q).1 = true →
        is_connection_error (e.error.getD "") = false →
        ¬(e.success = true ∧ (analyze_execution_result e j).is_valid = true) →
        (analyze_execution_result e j).needs_retry = true →
        20 ≤ state.retry_count →
        (sqlExecProcess state e j).current_step = ProcessingStep.ERROR
        ∧ (sqlExecProcess state e j).error_message
            = some "최대 재시도 횟수 초과 (20회): 더 구체적인 질의를 시도해보세요.")
    ∧ (∀ (user_query : String) (enable : Bool) (schema_data : List (String × String))
        (os : List Oracle),
        (pipelineRun enable schema_data .schema_analyst (initialState user_query) os).retry_count
          ≤ 20) := by
  refine ⟨sqlExecProcess_retry_le state e j, ?_, ?_, ?_⟩
  · unfold sqlExecProcess
    cases hv : state.validation_result with
    | none => intro hdev; simp at hdev
    | some vr =>
      dsimp only
      cases hq : vr.final_sql with
      | none => intro hdev; simp at hdev
      | some q =>
        dsimp only
        repeat' split
        all_goals intro hdev
        all_goals simp_all
  · intro vr q hvr hq hne hsafe hconn hnv hretry hcount
    unfold sqlExecProcess
    rw [hvr]
    dsimp only
    rw [hq]
    dsimp only
    rw [if_neg hne]
    rw [if_neg (show ¬((!(validate_sql_safety q).1) = true) by simp [hsafe])]
    rw [if_neg (show ¬(is_connection_error (e.error.getD "") = true) by simp [hconn])]
    rw [if_neg (show ¬((e.success && (analyze_execution_result e j).is_valid) = true) by
      simp only [Bool.and_eq_true]; exact hnv)]
    rw [if_neg (show ¬(((analyze_execution_result e j).needs_retry
        && decide (state.retry_count < 20)) = true) by
      simp only [Bool.and_eq_true, decide_eq_true_eq]
      rintro ⟨h1, h2⟩
      omega)]
    rw [if_pos (show state.retry_count ≥ 20 by omega)]
    exact ⟨rfl, rfl⟩
  · intro user_query enable schema_data os
    exact pipelineRun_retry_le enable schema_data os _ _ (by simp [initialState])

/-- Witness for C3 at concrete inputs: a judge-requested retry at counter 20
yields the budget-exceeded ERROR; at counter 5 the back-edge is taken with
the counter incremented to 6. -/
theorem C3_retry_budget_witness :
    ((sqlExecProcess
        { user_query := "q", retry_count := 20,
          validation_result := some { is_valid := true, syntax_errors := [], logic_warnings := [], suggestions := [], final_sql := some "SELECT 1" } }
        { success := false, error := some "Unknown column" } .fallback).current_step
      = ProcessingStep.ERROR
    ∧ (sqlExecProcess
        { user_query := "q", retry_count := 20,
          validation_result := some { is_valid := true, syntax_errors := [], logic_warnings := [], suggestions := [], final_sql := some "SELECT 1" } }
        { success := false, error := some "Unknown column" } .fallback).error_message
      = some "최대 재시도 횟수 초과 (20회): 더 구체적인 질의를 시도해보세요.")
    ∧ ((analyze_execution_result { success := false, error := some "Unknown column" }
        JudgeOutcome.fallback).needs_retry = true
      ∧ ({ user_query := "q", retry_count := 5, validation_result := some { is_valid := true, syntax_errors := [], logic_warnings := [], suggestions := [], final_sql := some "SELECT 1" } } : AgentState).retry_count < 20
      ∧ (sqlExecProcess
          { user_query := "q", retry_count := 5,
            validation_result := some { is_valid := true, syntax_errors := [], logic_warnings := [], suggestions := [], final_sql := some "SELECT 1" } }
          { success := false, error := some "Unknown column" } .fallback).retry_count = 5 + 1) := by
  constructor
  · exact (C3_retry_budget
      { user_query := "q", retry_count := 20,
        validation_result := some { is_valid := true, syntax_errors := [], logic_warnings := [], suggestions := [], final_sql := some "SELECT 1" } }
      { success := false, error := some "Unknown column" } .fallback).2.2.1
      { is_valid := true, syntax_errors := [], logic_warnings := [], suggestions := [], final_sql := some "SELECT 1" }
      "SELECT 1" rfl rfl (by decide) (by decide) (by decide) (by decide) (by decide) (by decide)
  · exact (C3_retry_budget
      { user_query := "q", retry_count := 5,
        validation_result := some { is_valid := true, syntax_errors := [], logic_warnings := [], suggestions := [], final_sql := some "SELECT 1" } }
      { success := false, error := some "Unknown column" } .fallback).2.1 (by decide)

/-- Claim C7: a database error matching the connection/transport keyword
patterns makes the execution stage go straight to terminal ERROR with the
connection-failure message; the retry counter is untouched and the Result
Judge is never consulted (the outcome is identical for every judge
oracle, model path and fallback alike). -/
theorem C7_connection_error_short_circuit (state : AgentState) (e : ExecResult)
    (j : JudgeOutcome) (vr : ValidationResult) (q : String)
    (hvr : state.validation_result = some vr)
    (hq : vr.final_sql = some q)
    (hne : q ≠ "")
    (hsafe : (validate_sql_safety q).1 = true)
    (hconn : is_connection_error (e.error.getD "") = true) :
    (sqlExecProcess state e j).current_step = ProcessingStep.ERROR
    ∧ (sqlExecProcess state e j).error_message
        = some ("데이터베이스 연결 실패: " ++ e.error.getD "")
    ∧ (sqlExecProcess state e j).retry_count = state.retry_count
    ∧ (∀ j' : JudgeOutcome, sqlExecProcess state e j' = sqlExecProcess state e j) := by
  have main : ∀ j0 : JudgeOutcome,
      (sqlExecProcess state e j0).current_step = ProcessingStep.ERROR
      ∧ (sqlExecProcess state e j0).error_message
          = some ("데이터베이스 연결 실패: " ++ e.error.getD "")
      ∧ (sqlExecProcess state e j0).retry_count = state.retry_count := by
    intro j0
    unfold sqlExecProcess
    rw [hvr]
    dsimp only
    rw [hq]
    dsimp only
    rw [if_neg hne]
    rw [if_neg (show ¬((!(validate_sql_safety q).1) = true) by simp [hsafe])]
    rw [if_pos hconn]
    exact ⟨rfl, rfl, rfl⟩
  have hred : ∀ j0 : JudgeOutcome, sqlExecProcess state e j0 =
      { state with
          sql_execution_result := some
            { sql_query := q, execution_success := false, result_data := none,
              result_columns := none, row_count := 0, error_message := e.error,
              analysis := some { is_valid := false, needs_retry := false, retry_reason := "DB 연결 오류" } },
          current_step := .ERROR,
          error_message := some ("데이터베이스 연결 실패: " ++ e.error.getD ""),
          processing_history := state.processing_history ++ ["DB 연결 오류로 SQL 실행 불가"] } := by
    intro j0
    unfold sqlExecProcess
    rw [hvr]
    dsimp only
    rw [hq]
    dsimp only
    rw [if_neg hne]
    rw [if_neg (show ¬((!(validate_sql_safety q).1) = true) by simp [hsafe])]
    rw [if_pos hconn]
  exact ⟨(main j).1, (main j).2.1, (main j).2.2, fun j' => (hred j').trans (hred j).symm⟩

/-- Witness for C7: an execution result whose error text matches
"connection error" short-circuits to ERROR with the counter unchanged. -/
theorem C7_connection_error_short_circuit_witness :
    (sqlExecProcess
      { user_query := "q", retry_count := 3,
        validation_result := some { is_valid := true, syntax_errors := [], logic_warnings := [], suggestions := [], final_sql := some "SELECT 1" } }
      { success := false, error := some "Connection Error: tunnel closed" } .fallback).current_step
      = ProcessingStep.ERROR
    ∧ (sqlExecProcess
      { user_query := "q", retry_count := 3,
        validation_result := some { is_valid := true, syntax_errors := [], logic_warnings := [], suggestions := [], final_sql := some "SELECT 1" } }
      { success := false, error := some "Connection Error: tunnel closed" } .fallback).retry_count = 3
    ∧ (∀ j' : JudgeOutcome, sqlExecProcess
      { user_query := "q", retry_count := 3,
        validation_result := some { is_valid := true, syntax_errors := [], logic_warnings := [], suggestions := [], final_sql := some "SELECT 1" } }
      { success := false, error := some "Connection Error: tunnel closed" } j'
      = sqlExecProcess
      { user_query := "q", retry_count := 3,
        validation_result := some { is_valid := true, syntax_errors := [], logic_warnings := [], suggestions := [], final_sql := some "SELECT 1" } }
      { success := false, error := some "Connection Error: tunnel closed" } .fallback) := by
  have h := C7_connection_error_short_circuit
    { user_query := "q", retry_count := 3,
      validation_result := some { is_valid := true, syntax_errors := [], logic_warnings := [], suggestions := [], final_sql := some "SELECT 1" } }
    { success := false, error := some "Connection Error: tunnel closed" } .fallback
    { is_valid := true, syntax_errors := [], logic_warnings := [], suggestions := [], final_sql := some "SELECT 1" }
    "SELECT 1" rfl rfl (by decide) (by decide) (by decide)
  exact ⟨h.1, h.2.2.1, h.2.2.2⟩

/-! ### The terminal-state invariant (claim C2) -/

lemma validatorProcess_inv (schema_data : List (String × String)) (st : AgentState)
    (llm : ValidatorOutcome) (hf : st.final_sql = none) (he : st.error_message = none) :
    (validatorProcess schema_data st llm).final_sql = none
    ∨ (validatorProcess schema_data st llm).error_message = none := by
  unfold validatorProcess validator_finish
  cases st.sql_result with
  | none => exact Or.inl hf
  | some sr =>
    dsimp only
    split
    · exact Or.inl hf
    · split
      · split
        · exact Or.inr he
        · exact Or.inl hf
      · cases llm <;> dsimp only
        all_goals first
        | exact Or.inl hf
        | (split
           · exact Or.inr he
           · exact Or.inl hf)

lemma pipelineStep_inv (enable : Bool) (schema_data : List (String × String))
    (n : Node) (st : AgentState) (o : Oracle) (h : StInv n st) :
    StInv (pipelineStep enable schema_data n st o).1 (pipelineStep enable schema_data n st o).2 := by
  cases n with
  | schema_analyst =>
    obtain ⟨hf, he⟩ := h
    cases ho : o.schemaOut <;>
      simp [pipelineStep, schemaProcess, route_after_schema_analysis, StInv, NeverBoth, ho, hf, he]
  | query_planner =>
    obtain ⟨hf, he⟩ := h
    cases hs : st.schema_analysis <;> cases ho : o.planOut <;>
      simp [pipelineStep, plannerProcess, route_after_query_planning, StInv, NeverBoth,
        hs, ho, hf, he]
  | sql_developer =>
    obtain ⟨hf, he⟩ := h
    by_cases hg : st.query_plan = none ∨ st.schema_analysis = none <;> cases ho : o.devOut <;>
      simp [pipelineStep, devProcess, route_after_sql_development, StInv, NeverBoth,
        hg, ho, hf, he]
  | quality_validator =>
    obtain ⟨hf, he⟩ := h
    have hnb := validatorProcess_inv schema_data st o.valOut hf he
    have hsc := validatorProcess_step_cases schema_data st o.valOut
    cases enable
    · show StInv
        (if route_after_validation false (validatorProcess schema_data st o.valOut) = "end"
          then Node.endNode else Node.error_handler)
        (validatorProcess schema_data st o.valOut)
      split
      · exact hnb
      · exact hnb
    · show StInv
        (if route_after_validation true (validatorProcess schema_data st o.valOut) = "sql_executor"
          then Node.sql_executor else Node.error_handler)
        (validatorProcess schema_data st o.valOut)
      split
      · rename_i hroute
        exact absurd hroute (by rcases hsc with hs | hs <;> simp [route_after_validation, hs])
      · exact hnb
  | sql_executor => exact h.elim
  | error_handler => exact h
  | endNode => exact h

lemma pipelineRun_inv (enable : Bool) (schema_data : List (String × String)) :
    ∀ (os : List Oracle) (n : Node) (st : AgentState), StInv n st →
      NeverBoth (pipelineRun enable schema_data n st os) := by
  intro os
  induction os with
  | nil =>
    intro n st h
    cases n <;>
      first
      | exact h.elim
      | exact h
      | exact Or.inl h.1
  | cons o os ih =>
    intro n st h
    cases n with
    | endNode => exact h
    | _ =>
      exact ih _ _ (pipelineStep_inv enable schema_data _ st o h)

/-- Claim C2 counterexample: a pipeline run (execution disabled) in which
the model's correction JSON declares validity with an EMPTY corrected SQL
(and the non-improving correction is not overridden) terminates COMPLETED
with `final_sql = some ""` and no error message — so NEITHER a non-empty
final SQL nor a non-empty error message is present at the terminal stage,
refuting the exactly-one invariant. -/
theorem C2_counterexample :
    (pipelineRun false [] .schema_analyst (initialState "q")
      [{ schemaOut := .success { relevant_tables := [], key_relationships := [], suggested_joins := [], analysis_notes := "" }, planOut := .parseFail "", devOut := .exn "", valOut := .parseFail, execRes := { success := false }, judgeOut := .fallback },
       { schemaOut := .parseFail "", planOut := .success { query_steps := [], join_strategy := [], subquery_structure := [], complexity_level := "낮음", estimated_performance := "" }, devOut := .exn "", valOut := .parseFail, execRes := { success := false }, judgeOut := .fallback },
       { schemaOut := .parseFail "", planOut := .parseFail "", devOut := .success { sql_query := "SELECT", explanation := "e", performance_notes := "", expected_columns := [] }, valOut := .parseFail, execRes := { success := false }, judgeOut := .fallback },
       { schemaOut := .parseFail "", planOut := .parseFail "", devOut := .exn "", valOut := .jsonData { is_valid := true, final_sql := "" }, execRes := { success := false }, judgeOut := .fallback }]).current_step
      = ProcessingStep.COMPLETED
    ∧ (pipelineRun false [] .schema_analyst (initialState "q")
      [{ schemaOut := .success { relevant_tables := [], key_relationships := [], suggested_joins := [], analysis_notes := "" }, planOut := .parseFail "", devOut := .exn "", valOut := .parseFail, execRes := { success := false }, judgeOut := .fallback },
       { schemaOut := .parseFail "", planOut := .success { query_steps := [], join_strategy := [], subquery_structure := [], complexity_level := "낮음", estimated_performance := "" }, devOut := .exn "", valOut := .parseFail, execRes := { success := false }, judgeOut := .fallback },
       { schemaOut := .parseFail "", planOut := .parseFail "", devOut := .success { sql_query := "SELECT", explanation := "e", performance_notes := "", expected_columns := [] }, valOut := .parseFail, execRes := { success := false }, judgeOut := .fallback },
       { schemaOut := .parseFail "", planOut := .parseFail "", devOut := .exn "", valOut := .jsonData { is_valid := true, final_sql := "" }, execRes := { success := false }, judgeOut := .fallback }]).final_sql
      = some ""
    ∧ (pipelineRun false [] .schema_analyst (initialState "q")
      [{ schemaOut := .success { relevant_tables := [], key_relationships := [], suggested_joins := [], analysis_notes := "" }, planOut := .parseFail "", devOut := .exn "", valOut := .parseFail, execRes := { success := false }, judgeOut := .fallback },
       { schemaOut := .parseFail "", planOut := .success { query_steps := [], join_strategy := [], subquery_structure := [], complexity_level := "낮음", estimated_performance := "" }, devOut := .exn "", valOut := .parseFail, execRes := { success := false }, judgeOut := .fallback },
       { schemaOut := .parseFail "", planOut := .parseFail "", devOut := .success { sql_query := "SELECT", explanation := "e", performance_notes := "", expected_columns := [] }, valOut := .parseFail, execRes := { success := false }, judgeOut := .fallback },
       { schemaOut := .parseFail "", planOut := .parseFail "", devOut := .exn "", valOut := .jsonData { is_valid := true, final_sql := "" }, execRes := { success := false }, judgeOut := .fallback }]).error_message
      = none := by
  refine ⟨by decide, by decide, by decide⟩

/-- Claim C2 amended: at a terminal stage the two fields are never BOTH
populated — every pipeline run from the initial state ends (terminal or
recursion-limited) with `final_sql` unset or `error_message` unset. The
"never neither" half of the claimed exactly-one invariant fails (see the
counterexample: validation can accept an empty model-corrected SQL). -/
theorem C2_amended_terminal_never_both (enable : Bool)
    (schema_data : List (String × String)) (user_query : String) (os : List Oracle)
    (hterm : (pipelineRun enable schema_data .schema_analyst (initialState user_query) os).current_step
        = ProcessingStep.COMPLETED
      ∨ (pipelineRun enable schema_data .schema_analyst (initialState user_query) os).current_step
        = ProcessingStep.ERROR) :
    ¬((pipelineRun enable schema_data .schema_analyst (initialState user_query) os).final_sql ≠ none
      ∧ (pipelineRun enable schema_data .schema_analyst (initialState user_query) os).error_message ≠ none) := by
  rintro ⟨hf, he⟩
  rcases pipelineRun_inv enable schema_data os .schema_analyst (initialState user_query)
    ⟨rfl, rfl⟩ with h | h
  · exact hf h
  · exact he h

/-- Witness for C2's amended statement: a run that fails at schema analysis
terminates in ERROR, and indeed does not populate both fields. -/
theorem C2_amended_terminal_never_both_witness :
    ((pipelineRun true [] .schema_analyst (initialState "q")
      [{ schemaOut := .exn "api down", planOut := .parseFail "", devOut := .exn "", valOut := .parseFail, execRes := { success := false }, judgeOut := .fallback }]).current_step
        = ProcessingStep.COMPLETED
      ∨ (pipelineRun true [] .schema_analyst (initialState "q")
      [{ schemaOut := .exn "api down", planOut := .parseFail "", devOut := .exn "", valOut := .parseFail, execRes := { success := false }, judgeOut := .fallback }]).current_step
        = ProcessingStep.ERROR)
    ∧ ¬((pipelineRun true [] .schema_analyst (initialState "q")
      [{ schemaOut := .exn "api down", planOut := .parseFail "", devOut := .exn "", valOut := .parseFail, execRes := { success := false }, judgeOut := .fallback }]).final_sql ≠ none
      ∧ (pipelineRun true [] .schema_analyst (initialState "q")
      [{ schemaOut := .exn "api down", planOut := .parseFail "", devOut := .exn "", valOut := .parseFail, execRes := { success := false }, judgeOut := .fallback }]).error_message ≠ none) :=
  ⟨Or.inr (by decide),
    C2_amended_terminal_never_both true [] "q" _ (Or.inr (by decide))⟩

end TextToSQL
